import Mathlib

-- Verification of two TypeScript source files of the nx repository fragment:
-- the Cypress component-testing preset resolver (nxComponentTestingPreset and
-- its helpers) and the module-federation remote registrar (addRemoteToHost and
-- its helpers).  External collaborators (devkit, tsquery, filesystem) are
-- modelled as fields of an environment structure; everything written in the
-- two source files themselves is embedded definitionally below.

-- ========================================================================
-- JavaScript string primitives used by the embedded code
-- ========================================================================

/-- The character class matched by the JavaScript regular expression \s. -/
def jsWhitespace : List Char :=
  [' ', '\t', '\n', '\r', '\x0b', '\x0c', ' ', ' ',
   ' ', ' ', ' ', ' ', ' ', ' ', ' ',
   ' ', ' ', ' ', ' ', ' ', ' ', ' ',
   ' ', '　', '﻿']

/-- Whether a character is JavaScript whitespace (the \s class). -/
def isJsWhitespaceChar (c : Char) : Bool := jsWhitespace.contains c

/-- JavaScript s.replace of all whitespace runs by the empty string:
deleting every \s character. -/
def stripWhitespace (s : String) : String :=
  ⟨s.data.filter (fun c => !isJsWhitespaceChar c)⟩

/-- JavaScript s.endsWith suffix. -/
def jsEndsWith (s suffix : String) : Bool := suffix.data.isSuffixOf s.data

/-- First index at which needle occurs in hay, JavaScript indexOf semantics
(some i when found, none when absent; the empty needle is found at 0). -/
def firstIndexOf? : List Char → List Char → Option Nat
  | [], needle => if needle.isEmpty then some 0 else none
  | c :: t, needle =>
    if needle.isPrefixOf (c :: t) then some 0
    else (firstIndexOf? t needle).map (· + 1)

/-- JavaScript s.includes sub. -/
def jsIncludes (s sub : String) : Bool := (firstIndexOf? s.data sub.data).isSome

/-- JavaScript s.indexOf sub where the caller has already checked inclusion
(the -1 case is mapped to 0; every use below is guarded by jsIncludes). -/
def jsIndexOf (s sub : String) : Nat := (firstIndexOf? s.data sub.data).getD 0

/-- JavaScript s.slice 0 i. -/
def jsSliceTo (s : String) (i : Nat) : String := ⟨s.data.take i⟩

/-- JavaScript s.slice i. -/
def jsSliceFrom (s : String) (i : Nat) : String := ⟨s.data.drop i⟩

/-- JavaScript truthiness of a string that may be undefined: undefined and
the empty string are falsy. -/
def jsTruthyStr : Option String → Bool
  | none => false
  | some s => !(s == "")

/-- JavaScript template interpolation of a string that may be undefined. -/
def jsShowOptString : Option String → String
  | none => "undefined"
  | some s => s

/-- JavaScript template interpolation of a boolean (the !!x pattern). -/
def jsShowBool (b : Bool) : String := if b then "true" else "false"

-- ========================================================================
-- Part 1: data model of the preset resolver (component-testing/index.ts)
-- ========================================================================

/-- A JavaScript Error value: what the code throws and logs. -/
structure JsError where
  message : String
  deriving DecidableEq, Repr

/-- The option bag of a target configuration, opaque to this code: the
resolver only passes it around. -/
structure TargetConfiguration where
  executor : Option String := none
  rawOptions : List (String × String) := []
  deriving DecidableEq, Repr

/-- devkit ProjectConfiguration: the data field of a project graph node.
Only name, root, sourceRoot and targets are read by this code. -/
structure ProjectConfiguration where
  name : Option String := none
  root : String := ""
  sourceRoot : Option String := none
  targets : List (String × TargetConfiguration) := []
  deriving DecidableEq, Repr

/-- The project graph, viewed as the partial map sending a project name to
graph.nodes[name]?.data (the only access pattern in this code). -/
abbrev ProjectGraph := String → Option ProjectConfiguration

/-- A parsed target reference (devkit Target): project:target:configuration. -/
structure Target where
  project : String
  target : String
  configuration : Option String := none
  deriving DecidableEq, Repr

/-- nx.json content, opaque to this code. -/
structure NxJson where
  raw : List (String × String) := []

/-- readProjectsConfigurationFromProjectGraph result, opaque to this code. -/
structure ProjectsConfigurations where
  version : Nat := 2
  projects : List (String × ProjectConfiguration) := []

/-- The workspace field of the executor context: the record spread
of readNxJson() and the projects configurations. -/
structure Workspace where
  nxJson : NxJson
  version : Nat
  projects : List (String × ProjectConfiguration)

/-- devkit ExecutorContext as built by createExecutorContext. -/
structure ExecutorContext where
  cwd : String
  projectGraph : ProjectGraph
  target : Option TargetConfiguration
  targetName : String
  configurationName : Option String
  root : String
  isVerbose : Bool
  projectName : String
  workspace : Workspace

/-- CypressExecutorOptions: only devServerTarget is read by this code. -/
structure CypressExecutorOptions where
  devServerTarget : Option String := none
  deriving DecidableEq, Repr

/-- The webpack executor optimization option: a boolean or an object with
per-kind flags. -/
inductive OptimizationOpt where
  | bool (b : Bool)
  | obj (scripts : Option Bool) (styles : Option Bool)
  deriving DecidableEq, Repr

/-- WebWebpackExecutorOptions: the fields defaulted by withSchemaDefaults
plus the optimization field read by buildTargetWebpack.  List-valued entries
whose element structure the code never inspects are kept as strings. -/
structure WebWebpackExecutorOptions where
  compiler : Option String := none
  deleteOutputPath : Option Bool := none
  vendorChunk : Option Bool := none
  commonChunk : Option Bool := none
  runtimeChunk : Option Bool := none
  sourceMap : Option Bool := none
  assets : Option (List String) := none
  scripts : Option (List String) := none
  styles : Option (List String) := none
  budgets : Option (List String) := none
  namedChunks : Option Bool := none
  outputHashing : Option String := none
  extractCss : Option Bool := none
  memoryLimit : Option Nat := none
  maxWorkers : Option Nat := none
  fileReplacements : Option (List String) := none
  buildLibsFromSource : Option Bool := none
  generateIndexHtml : Option Bool := none
  optimization : Option OptimizationOpt := none
  deriving DecidableEq, Repr

/-- The option bag handed to buildBaseWebpackConfig in the fallback branch. -/
structure BaseWebpackOpts where
  tsConfigPath : String
  compiler : String
  deriving DecidableEq, Repr

/-- The override options accepted by nxComponentTestingPreset. -/
structure ReactComponentTestingOptions where
  ctTargetName : String
  deriving DecidableEq, Repr

/-- One logger call made by the resolver (only warnings occur). -/
inductive LogEntry where
  | warn (s : String)
  | warnErr (e : JsError)
  deriving DecidableEq, Repr

/-- The devServer sub-object of the returned preset. -/
structure DevServerConfig (W : Type) where
  framework : String
  bundler : String
  webpackConfig : W
  deriving DecidableEq, Repr

/-- The preset returned by nxComponentTestingPreset: the spread of the base
Cypress preset and the devServer object. -/
structure Preset (P W : Type) where
  base : P
  devServer : DevServerConfig W
  deriving DecidableEq, Repr

/-- The external collaborators consumed by the preset resolver, each fallible
exactly where the real one can throw.  P is the (opaque) type of the base
Cypress preset, W the (opaque) type of webpack configurations. -/
structure PresetEnv (P W : Type) where
  workspaceRoot : String
  cwd : String
  readCachedProjectGraph : Except JsError ProjectGraph
  envCtConfiguration : Option String
  normalizeConfigPath : String → Except JsError String
  allFiles : ProjectGraph → String → Option String
  readNxJson : Except JsError NxJson
  readProjectsConfigurationFromProjectGraph :
    ProjectGraph → Except JsError ProjectsConfigurations
  readTargetOptionsCypress :
    Target → ExecutorContext → Except JsError CypressExecutorOptions
  readTargetOptionsWeb :
    Target → ExecutorContext → Except JsError WebWebpackExecutorOptions
  parseTargetString : String → Except JsError Target
  normalizeWebBuildOptions :
    WebWebpackExecutorOptions → String → Option String →
      Except JsError WebWebpackExecutorOptions
  getWebConfig :
    String → String → Option String → WebWebpackExecutorOptions → Bool →
      Bool → Option String → Except JsError W
  nxBaseCypressPreset : String → P
  buildBaseWebpackConfig : BaseWebpackOpts → W

-- ========================================================================
-- Part 1: embedded source functions
-- ========================================================================

/-- The error message thrown by getConfigByPath, after stripIndents. -/
def getConfigByPathMessage (normalizedPath : String) (foundName : Option String)
    (hasData : Bool) : String :=
  "Unable to find the project configuration that includes " ++ normalizedPath ++
    ".\nFound project name? " ++ jsShowOptString foundName ++
    ".\nGraph has data? " ++ jsShowBool hasData

/-- getConfigByPath: map the config path to a project via the file index,
fail when no project or no data is found, and back-fill a missing name. -/
def getConfigByPath {P W : Type} (env : PresetEnv P W) (graph : ProjectGraph)
    (configPath : String) : Except JsError ProjectConfiguration :=
  match env.normalizeConfigPath configPath with
  | .error e => .error e
  | .ok normalizedPathFromWorkspaceRoot =>
    let componentTestingProjectName :=
      env.allFiles graph normalizedPathFromWorkspaceRoot
    let dataOpt := componentTestingProjectName.bind graph
    if !(jsTruthyStr componentTestingProjectName) || dataOpt.isNone then
      .error ⟨getConfigByPathMessage normalizedPathFromWorkspaceRoot
        componentTestingProjectName dataOpt.isSome⟩
    else
      match dataOpt with
      | none => .error ⟨getConfigByPathMessage normalizedPathFromWorkspaceRoot
          componentTestingProjectName false⟩
      | some data =>
        -- make sure name is set since it can be undefined
        .ok { data with
          name := some (data.name.getD
            (componentTestingProjectName.getD "")) }

/-- createExecutorContext, including the fallible external reads it makes. -/
def createExecutorContext {P W : Type} (env : PresetEnv P W)
    (graph : ProjectGraph) (targets : List (String × TargetConfiguration))
    (projectName targetName : String) (configurationName : Option String) :
    Except JsError ExecutorContext :=
  match env.readProjectsConfigurationFromProjectGraph graph with
  | .error e => .error e
  | .ok projectConfigs =>
    match env.readNxJson with
    | .error e => .error e
    | .ok nxJson =>
      .ok { cwd := env.cwd
            projectGraph := graph
            target := (targets.find? (fun t => t.1 == targetName)).map (·.2)
            targetName := targetName
            configurationName := configurationName
            root := env.workspaceRoot
            isVerbose := false
            projectName := projectName
            workspace := { nxJson := nxJson
                           version := projectConfigs.version
                           projects := projectConfigs.projects } }

/-- The per-field nullish-coalescing defaults of withSchemaDefaults. -/
def applySchemaDefaults (options : WebWebpackExecutorOptions) :
    WebWebpackExecutorOptions :=
  { options with
    compiler := some (options.compiler.getD "babel")
    deleteOutputPath := some (options.deleteOutputPath.getD true)
    vendorChunk := some (options.vendorChunk.getD true)
    commonChunk := some (options.commonChunk.getD true)
    runtimeChunk := some (options.runtimeChunk.getD true)
    sourceMap := some (options.sourceMap.getD true)
    assets := some (options.assets.getD [])
    scripts := some (options.scripts.getD [])
    styles := some (options.styles.getD [])
    budgets := some (options.budgets.getD [])
    namedChunks := some (options.namedChunks.getD true)
    outputHashing := some (options.outputHashing.getD "none")
    extractCss := some (options.extractCss.getD true)
    memoryLimit := some (options.memoryLimit.getD 2048)
    maxWorkers := some (options.maxWorkers.getD 2)
    fileReplacements := some (options.fileReplacements.getD [])
    buildLibsFromSource := some (options.buildLibsFromSource.getD true)
    generateIndexHtml := some (options.generateIndexHtml.getD true) }

/-- withSchemaDefaults: read the target options and fill the schema.json
defaults of the @nrwl/web:webpack executor. -/
def withSchemaDefaults {P W : Type} (env : PresetEnv P W) (target : Target)
    (context : ExecutorContext) : Except JsError WebWebpackExecutorOptions :=
  match env.readTargetOptionsWeb target context with
  | .error e => .error e
  | .ok options => .ok (applySchemaDefaults options)

/-- The derived script-optimization flag of buildTargetWebpack. -/
def scriptOptimizeOn : Option OptimizationOpt → Bool
  | some (.bool b) => b
  | some (.obj scripts _) => scripts.getD false
  | none => false

/-- The error message thrown by buildTargetWebpack, after stripIndents. -/
def projectConfigsMissingMessage (buildTarget : String)
    (hasBuild hasCt : Bool) : String :=
  "Unable to load project configs from graph.\nUsing build target \x27" ++
    buildTarget ++ "\x27\nHas build config? " ++ jsShowBool hasBuild ++
    "\nHas component config? " ++ jsShowBool hasCt

/-- buildTargetWebpack: parse the devServerTarget triple, require both the
buildable and the component-testing project data, then normalize options and
call the external config builder. -/
def buildTargetWebpack {P W : Type} (env : PresetEnv P W)
    (graph : ProjectGraph) (buildTarget : String)
    (componentTestingProjectName : String) : Except JsError W :=
  match env.parseTargetString buildTarget with
  | .error e => .error e
  | .ok parsed =>
    let buildableProjectConfig := graph parsed.project
    let ctProjectConfig := graph componentTestingProjectName
    match buildableProjectConfig, ctProjectConfig with
    | some buildable, some ctProject =>
      match createExecutorContext env graph buildable.targets
          parsed.project parsed.target (some parsed.target) with
      | .error e => .error e
      | .ok context =>
        match withSchemaDefaults env parsed context with
        | .error e => .error e
        | .ok optionsWithDefaults =>
          match env.normalizeWebBuildOptions optionsWithDefaults
              env.workspaceRoot buildable.sourceRoot with
          | .error e => .error e
          | .ok options =>
            let isScriptOptimizeOn := scriptOptimizeOn options.optimization
            env.getWebConfig env.workspaceRoot ctProject.root
              ctProject.sourceRoot options true isScriptOptimizeOn
              parsed.configuration
    | b, c =>
      .error ⟨projectConfigsMissingMessage buildTarget b.isSome c.isSome⟩

/-- The ctTargetName resolution: options?.ctTargetName or the default
literal, with JavaScript falsiness of the empty string. -/
def resolveCtTargetName : Option ReactComponentTestingOptions → String
  | some o => if o.ctTargetName == "" then "component-test" else o.ctTargetName
  | none => "component-test"

/-- The error message thrown when devServerTarget is absent. -/
def devServerTargetMissingMessage (ctTargetName ctProjectName : String) :
    String :=
  "Unable to find the \x27devServerTarget\x27 executor option in the \x27" ++
    ctTargetName ++ "\x27 target of the \x27" ++ ctProjectName ++ "\x27 project"

/-- The try-block of nxComponentTestingPreset: every step of graph-based
webpack-config resolution, propagating any thrown error. -/
def resolveWebpackConfig {P W : Type} (env : PresetEnv P W)
    (pathToConfig : String) (options : Option ReactComponentTestingOptions) :
    Except JsError W :=
  match env.readCachedProjectGraph with
  | .error e => .error e
  | .ok graph =>
    match getConfigByPath env graph pathToConfig with
    | .error e => .error e
    | .ok ctConfig =>
      let ctProjectName := ctConfig.name.getD ""
      let ctTargetName := resolveCtTargetName options
      let ctConfigurationName := env.envCtConfiguration
      match createExecutorContext env graph ctConfig.targets ctProjectName
          ctTargetName ctConfigurationName with
      | .error e => .error e
      | .ok ctExecutorContext =>
        match env.readTargetOptionsCypress
            ⟨ctProjectName, ctTargetName, ctConfigurationName⟩
            ctExecutorContext with
        | .error e => .error e
        | .ok ctExecutorOptions =>
          let buildTarget := ctExecutorOptions.devServerTarget
          if !(jsTruthyStr buildTarget) then
            .error ⟨devServerTargetMissingMessage ctTargetName ctProjectName⟩
          else
            buildTargetWebpack env graph (buildTarget.getD "") ctProjectName

/-- The warning logged before falling back, after stripIndents. -/
def fallbackWarningMessage : String :=
  "Unable to build a webpack config with the project graph.\nFalling back to default webpack config."

/-- The hardcoded fallback option bag of the catch branch. -/
def fallbackWebpackOpts : BaseWebpackOpts :=
  { tsConfigPath := "tsconfig.cy.json", compiler := "babel" }

/-- nxComponentTestingPreset: run graph-based resolution, catch any error
into the hardcoded fallback, and return the preset together with the list of
logger.warn calls made. -/
def nxComponentTestingPreset {P W : Type} (env : PresetEnv P W)
    (pathToConfig : String) (options : Option ReactComponentTestingOptions) :
    Preset P W × List LogEntry :=
  match resolveWebpackConfig env pathToConfig options with
  | .ok webpackConfig =>
    ({ base := env.nxBaseCypressPreset pathToConfig
       devServer := { framework := "react"
                      bundler := "webpack"
                      webpackConfig := webpackConfig } }, [])
  | .error e =>
    ({ base := env.nxBaseCypressPreset pathToConfig
       devServer := { framework := "react"
                      bundler := "webpack"
                      webpackConfig := env.buildBaseWebpackConfig
                        fallbackWebpackOpts } },
     [.warn fallbackWarningMessage, .warnErr e])

-- ========================================================================
-- Part 2: data model of the remote registrar (add-remote-to-host file)
-- ========================================================================

/-- A JSON value, for the module-federation manifest. -/
inductive Json where
  | null
  | bool (b : Bool)
  | num (n : Int)
  | str (s : String)
  | arr (xs : List Json)
  | obj (fields : List (String × Json))
  deriving Repr

/-- A file of the virtual tree: plain text, or the parsed view of a JSON
file (only the manifest is accessed as JSON, and only through updateJson). -/
inductive FileContent where
  | text (s : String)
  | jsonObj (fields : List (String × Json))
  deriving Repr

/-- The devkit FileTree, viewed as an association list from path to content. -/
abbrev FileTree := List (String × FileContent)

/-- Content at a path, none when the file does not exist. -/
def FileTree.findContent? (t : FileTree) (p : String) : Option FileContent :=
  (t.find? (fun e => e.1 == p)).map (·.2)

/-- tree.exists. -/
def FileTree.pathExists (t : FileTree) (p : String) : Bool :=
  (FileTree.findContent? t p).isSome

/-- tree.read with utf-8: some for an existing text file, none otherwise
(the devkit returns null for a missing file). -/
def FileTree.readText (t : FileTree) (p : String) : Option String :=
  match FileTree.findContent? t p with
  | some (.text s) => some s
  | _ => none

/-- tree.write: overwrite in place, or append a new file. -/
def FileTree.writeFile (t : FileTree) (p : String) (c : FileContent) : FileTree :=
  if t.any (fun e => e.1 == p) then
    t.map (fun e => if e.1 == p then (p, c) else e)
  else t ++ [(p, c)]

/-- JavaScript object-spread update of one computed key: an existing key
keeps its position and gets the new value, a fresh key is appended. -/
def spreadSet (m : List (String × Json)) (k : String) (v : Json) :
    List (String × Json) :=
  if m.any (fun e => e.1 == k) then
    m.map (fun e => if e.1 == k then (k, v) else e)
  else m ++ [(k, v)]

/-- devkit joinPathFragments of two fragments. -/
def joinPathFragments (a b : String) : String := a ++ "/" ++ b

/-- devkit updateJson: parse the file at the path, apply the updater, write
the result back; a missing or unparseable file throws. -/
def updateJson (t : FileTree) (p : String)
    (f : List (String × Json) → List (String × Json)) :
    Except (String × FileTree) FileTree :=
  match FileTree.findContent? t p with
  | some (.jsonObj fields) => .ok (FileTree.writeFile t p (.jsonObj (f fields)))
  | some (.text _) => .error ("Cannot parse " ++ p ++ " as JSON", t)
  | none => .error ("Cannot find " ++ p, t)

/-- The generator options (Schema) read by addRemoteToHost. -/
structure Schema where
  mfType : String
  host : Option String := none
  appName : String
  port : Nat := 4200
  standalone : Bool := false
  deriving Repr

/-- Project configuration as read by readProjectConfiguration: the registrar
uses only root and sourceRoot. -/
structure MfProjectConfiguration where
  root : String
  sourceRoot : String
  deriving Repr

/-- The tsquery result node for the remotes array: its getEnd offset into
the file and its getText text. -/
structure MfRemotesNode where
  endPos : Nat
  text : String
  deriving Repr

/-- The host federation style. -/
inductive FederationType where
  | dynamic
  | static
  deriving DecidableEq, Repr

/-- The external collaborators of the remote registrar.  insertImport,
addRoute and addStandaloneRoute are tree-transforming devkit/ast utilities;
findRemotesArray is the tsquery lookup of the ArrayLiteralExpression after
the remotes identifier; classNameOf is devkit names().className. -/
structure RegistrarEnv where
  projects : FileTree → String → Option MfProjectConfiguration
  findRemotesArray : String → Option MfRemotesNode
  insertImport : FileTree → String → String → String → Except String FileTree
  addRoute : FileTree → String → String → Except String FileTree
  addStandaloneRoute : FileTree → String → String → Except String FileTree
  classNameOf : String → String

-- ========================================================================
-- Part 2: embedded source functions
-- ========================================================================

/-- checkIsCommaNeeded: strip all whitespace, then text ending in ,] or the
exact text [] needs no comma and anything else does. -/
def checkIsCommaNeeded (mfRemoteText : String) : Bool :=
  let remoteText := stripWhitespace mfRemoteText
  if !(jsEndsWith remoteText ",]") then
    (if remoteText == "[]" then false else true)
  else false

/-- determineHostFederationType: dynamic iff the manifest file exists. -/
def determineHostFederationType (tree : FileTree) (pathToMfManifest : String) :
    FederationType :=
  if FileTree.pathExists tree pathToMfManifest then .dynamic else .static

/-- The devkit error thrown by readProjectConfiguration for an unknown
project. -/
def projectNotFoundMessage (projectName : String) : String :=
  "Cannot find configuration for \x27" ++ projectName ++ "\x27"

/-- The error thrown by addRemoteToStaticHost when the static config file is
missing. -/
def staticHostMissingConfigMessage (host : Option String) : String :=
  "The selected host application, " ++ jsShowOptString host ++
    ", does not contain a module-federation.config.js or module-federation.manifest.json file. Are you sure it has been set up as a host application?"

/-- The JavaScript TypeError raised by calling a method of null or
undefined (tree.read of a missing file, or an empty tsquery result). -/
def typeErrorNullMember : String :=
  "TypeError: Cannot read properties of null or undefined"

/-- addRemoteToStaticHost: require the module-federation.config.js file,
locate the remotes array, and splice the new remote name before the closing
bracket with a comma when needed. -/
def addRemoteToStaticHost (env : RegistrarEnv) (tree : FileTree)
    (options : Schema) (hostProject : MfProjectConfiguration) :
    Except (String × FileTree) FileTree :=
  let hostMFConfigPath :=
    joinPathFragments hostProject.root "module-federation.config.js"
  if hostMFConfigPath == "" || !(FileTree.pathExists tree hostMFConfigPath) then
    .error (staticHostMissingConfigMessage options.host, tree)
  else
    let hostMFConfig := (FileTree.readText tree hostMFConfigPath).getD ""
    match env.findRemotesArray hostMFConfig with
    | none => .error (typeErrorNullMember, tree)
    | some mfRemotesNode =>
      let endOfPropertiesPos := mfRemotesNode.endPos - 1
      let isCommaNeeded := checkIsCommaNeeded mfRemotesNode.text
      let updatedConfig :=
        jsSliceTo hostMFConfig endOfPropertiesPos ++
          (if isCommaNeeded then "," else "") ++
          "\x27" ++ options.appName ++ "\x27," ++
          jsSliceFrom hostMFConfig endOfPropertiesPos
      .ok (FileTree.writeFile tree hostMFConfigPath (.text updatedConfig))

/-- The manifest updater of addRemoteToDynamicHost: the object spread
adding appName bound to the localhost URL of the configured port. -/
def addRemoteToDynamicHostUpdater (options : Schema)
    (manifest : List (String × Json)) : List (String × Json) :=
  spreadSet manifest options.appName
    (Json.str ("http://localhost:" ++ toString options.port))

/-- addRemoteToDynamicHost: updateJson on the manifest with the spread. -/
def addRemoteToDynamicHost (tree : FileTree) (options : Schema)
    (pathToMfManifest : String) : Except (String × FileTree) FileTree :=
  updateJson tree pathToMfManifest (addRemoteToDynamicHostUpdater options)

/-- The opening tag of the navigation menu searched for in the template. -/
def remoteMenuOpenTag : String := "<ul class=\"remote-menu\">"

/-- The list-item entry inserted into the navigation menu. -/
def remoteMenuEntry (appName className : String) : String :=
  "<li><a routerLink=\x27" ++ appName ++ "\x27>" ++ className ++
    "</a></li>\n"

/-- The template-patching tail of addLazyLoadedRouteToHostAppModule: when
the template contains the remote-menu opening tag and a closing ul tag,
splice the new entry at the first closing ul tag; otherwise no new content. -/
def patchAppComponentTemplate (appName className appComponent : String) :
    Option String :=
  if jsIncludes appComponent remoteMenuOpenTag &&
      jsIncludes appComponent "</ul>" then
    let indexOfClosingMenuTag := jsIndexOf appComponent "</ul>"
    some (jsSliceTo appComponent indexOfClosingMenuTag ++
      remoteMenuEntry appName className ++
      jsSliceFrom appComponent indexOfClosingMenuTag)
  else none

/-- The route object spliced into an NgModule-based routing file. -/
def ngModuleRouteText (appName routeToAdd : String) : String :=
  "\x7b\n         path: \x27" ++ appName ++ "\x27, \n         loadChildren: () => " ++
    routeToAdd ++ ".then(m => m.RemoteEntryModule)\n     \x7d"

/-- The route object spliced into a standalone routing file. -/
def standaloneRouteText (appName routeToAdd : String) : String :=
  "\x7b\n    path: \x27" ++ appName ++ "\x27,\n    loadChildren: () => " ++
    routeToAdd ++ ".then(m => m.RemoteRoutes)\n    \x7d"

/-- The routing entry point chosen by addLazyLoadedRouteToHostAppModule:
bootstrap.ts when the bootstrap content lacks bootstrapModule (standalone
heuristic), app/app.module.ts otherwise. -/
def hostRootRoutingPath (sourceRoot bootstrapContent : String) : String :=
  let isHostStandalone := !(jsIncludes bootstrapContent "bootstrapModule")
  if isHostStandalone then sourceRoot ++ "/bootstrap.ts"
  else sourceRoot ++ "/app/app.module.ts"

/-- Pair an error of a tree-transforming collaborator with the tree state at
the time of the throw. -/
def liftStep (r : Except String FileTree) (t : FileTree) : Except (String × FileTree) FileTree :=
  match r with
  | .ok t2 => .ok t2
  | .error m => .error (m, t)

/-- addLazyLoadedRouteToHostAppModule: determine the routing entry point,
return silently when it is missing or has no RouterModule.forRoot call, else
insert the lazy route (and, for dynamic hosts, the loadRemoteModule import)
and patch the app template menu. -/
def addLazyLoadedRouteToHostAppModule (env : RegistrarEnv) (tree : FileTree)
    (options : Schema) (hostFederationType : FederationType) :
    Except (String × FileTree) FileTree :=
  match env.projects tree (options.host.getD "") with
  | none => .error (projectNotFoundMessage (options.host.getD ""), tree)
  | some hostAppConfig =>
    -- tree.read returns null for a missing bootstrap.ts and the includes
    -- call on it raises a TypeError
    match FileTree.readText tree
        (joinPathFragments hostAppConfig.sourceRoot "bootstrap.ts") with
    | none => .error (typeErrorNullMember, tree)
    | some bootstrapContent =>
      let pathToHostRootRouting :=
        hostRootRoutingPath hostAppConfig.sourceRoot bootstrapContent
      if !(FileTree.pathExists tree pathToHostRootRouting) then
        .ok tree
      else
        match FileTree.readText tree pathToHostRootRouting with
        | none => .error (typeErrorNullMember, tree)
        | some hostRootRoutingFile =>
          if !(jsIncludes hostRootRoutingFile "RouterModule.forRoot(") then
            .ok tree
          else
            match (if hostFederationType == .dynamic then
                liftStep (env.insertImport tree pathToHostRootRouting
                  "loadRemoteModule" "@nrwl/angular/mf") tree
              else .ok tree) with
            | .error e => .error e
            | .ok tree1 =>
              let routePathName :=
                if options.standalone then "Routes" else "Module"
              let routeToAdd :=
                if hostFederationType == .dynamic then
                  "loadRemoteModule(\x27" ++ options.appName ++ "\x27, \x27./" ++
                    routePathName ++ "\x27)"
                else
                  "import(\x27" ++ options.appName ++ "/" ++ routePathName ++
                    "\x27)"
              match (if jsIncludes hostRootRoutingFile "@NgModule" then
                  liftStep (env.addRoute tree1 pathToHostRootRouting
                    (ngModuleRouteText options.appName routeToAdd)) tree1
                else
                  liftStep (env.addStandaloneRoute tree1 pathToHostRootRouting
                    (standaloneRouteText options.appName routeToAdd)) tree1) with
              | .error e => .error e
              | .ok tree2 =>
                let pathToAppComponentTemplate :=
                  joinPathFragments hostAppConfig.sourceRoot
                    "app/app.component.html"
                match FileTree.readText tree2 pathToAppComponentTemplate with
                | none => .error (typeErrorNullMember, tree2)
                | some appComponent =>
                  match patchAppComponentTemplate options.appName
                      (env.classNameOf options.appName) appComponent with
                  | some newAppComponent =>
                    .ok (FileTree.writeFile tree2 pathToAppComponentTemplate
                      (.text newAppComponent))
                  | none => .ok tree2

/-- addRemoteToHost: effective only for a remote with a host; classify the
host federation style, update the matching config artifact, append the
remotes.d.ts declaration, then patch routing and menu. -/
def addRemoteToHost (env : RegistrarEnv) (tree : FileTree) (options : Schema) :
    Except (String × FileTree) FileTree :=
  if options.mfType == "remote" && jsTruthyStr options.host then
    match env.projects tree (options.host.getD "") with
    | none => .error (projectNotFoundMessage (options.host.getD ""), tree)
    | some hostProject =>
      let pathToMFManifest := joinPathFragments hostProject.sourceRoot
        "assets/module-federation.manifest.json"
      let hostFederationType := determineHostFederationType tree pathToMFManifest
      match (match hostFederationType with
        | .static => addRemoteToStaticHost env tree options hostProject
        | .dynamic => addRemoteToDynamicHost tree options pathToMFManifest) with
      | .error e => .error e
      | .ok tree1 =>
        let declarationFilePath :=
          joinPathFragments hostProject.sourceRoot "remotes.d.ts"
        let declarationFileContent :=
          (if FileTree.pathExists tree1 declarationFilePath then
            (FileTree.readText tree1 declarationFilePath).getD ""
          else "") ++
          "\ndeclare module \x27" ++ options.appName ++ "/" ++
            (if options.standalone then "Routes" else "Module") ++ "\x27;"
        let tree2 := FileTree.writeFile tree1 declarationFilePath
          (.text declarationFileContent)
        addLazyLoadedRouteToHostAppModule env tree2 options hostFederationType
  else .ok tree

-- ========================================================================
-- Concrete sample instances used by witnesses and counterexamples
-- ========================================================================

/-- A component-test target configuration. -/
def sampleCtTarget : TargetConfiguration :=
  { executor := some "@nrwl/cypress:cypress" }

/-- A component-testing project as stored in the graph (name unset, as the
graph can leave it undefined). -/
def sampleCtProject : ProjectConfiguration :=
  { name := none
    root := "apps/fancy-app"
    sourceRoot := some "apps/fancy-app/src"
    targets := [("component-test", sampleCtTarget)] }

/-- A graph holding only the component-testing project: the build target it
points at is absent, so build-target data cannot be resolved. -/
def sampleGraph : ProjectGraph :=
  fun n => if n == "fancy-app" then some sampleCtProject else none

/-- A fully concrete preset-resolver environment over that graph. -/
def sampleEnv : PresetEnv Unit String :=
  { workspaceRoot := "/ws"
    cwd := "/ws"
    readCachedProjectGraph := .ok sampleGraph
    envCtConfiguration := none
    normalizeConfigPath := fun _ => .ok "apps/fancy-app/cypress.config"
    allFiles := fun _ p =>
      if p == "apps/fancy-app/cypress.config" then some "fancy-app" else none
    readNxJson := .ok {}
    readProjectsConfigurationFromProjectGraph := fun _ => .ok {}
    readTargetOptionsCypress := fun _ _ =>
      .ok { devServerTarget := some "other-app:build" }
    readTargetOptionsWeb := fun _ _ => .ok {}
    parseTargetString := fun s =>
      if s == "other-app:build" then .ok ⟨"other-app", "build", none⟩
      else .error ⟨"Invalid target string: " ++ s⟩
    normalizeWebBuildOptions := fun o _ _ => .ok o
    getWebConfig := fun _ _ _ _ _ _ _ => .ok "graph-webpack-config"
    nxBaseCypressPreset := fun _ => ()
    buildBaseWebpackConfig := fun opts =>
      "fallback:" ++ opts.tsConfigPath ++ ":" ++ opts.compiler }

/-- sampleEnv with the cypress target options missing devServerTarget. -/
def envNoDevServerTarget : PresetEnv Unit String :=
  { sampleEnv with readTargetOptionsCypress := fun _ _ => .ok {} }

/-- The component-testing project as returned by getConfigByPath (name
back-filled). -/
def sampleCtProjectNamed : ProjectConfiguration :=
  { sampleCtProject with name := some "fancy-app" }

/-- The executor context built for the component-test target of sampleEnv. -/
def sampleExecutorContext : ExecutorContext :=
  { cwd := "/ws"
    projectGraph := sampleGraph
    target := some sampleCtTarget
    targetName := "component-test"
    configurationName := none
    root := "/ws"
    isVerbose := false
    projectName := "fancy-app"
    workspace := { nxJson := {}, version := 2, projects := [] } }

/-- A concrete registrar environment with one known host project. -/
def sampleRegistrarEnv : RegistrarEnv :=
  { projects := fun _ n =>
      if n == "host1" then some ⟨"apps/host1", "apps/host1/src"⟩ else none
    findRemotesArray := fun _ => none
    insertImport := fun t _ _ _ => .ok t
    addRoute := fun t _ _ => .ok t
    addStandaloneRoute := fun t _ _ => .ok t
    classNameOf := fun s => s }

/-- Generator options registering remote app1 against host1. -/
def sampleRemoteOptions : Schema :=
  { mfType := "remote"
    host := some "host1"
    appName := "app1"
    port := 4201
    standalone := false }

/-- Generator options for a host generation run (not a remote). -/
def sampleHostOptions : Schema :=
  { mfType := "host", host := none, appName := "app2" }

/-- The manifest path of host1. -/
def manifestPath : String :=
  "apps/host1/src/assets/module-federation.manifest.json"

-- ========================================================================
-- Claim theorems
-- ========================================================================

/-- C5: checkIsCommaNeeded returns false on the empty array text, true on a
one-element array without trailing comma, false with a trailing comma; and
in general, after stripping all whitespace, text ending in ,] needs no
comma, the exact text [] needs no comma, and any other text needs one. -/
theorem checkIsCommaNeeded_spec :
    checkIsCommaNeeded "[]" = false ∧
    checkIsCommaNeeded "[ \x27a\x27 ]" = true ∧
    checkIsCommaNeeded "[\x27a\x27,]" = false ∧
    ∀ s : String, checkIsCommaNeeded s =
      (!(jsEndsWith (stripWhitespace s) ",]") &&
        !(stripWhitespace s == "[]")) := by
  refine ⟨by decide, by decide, by decide, ?_⟩
  intro s
  unfold checkIsCommaNeeded
  cases h1 : jsEndsWith (stripWhitespace s) ",]" <;>
    cases h2 : stripWhitespace s == "[]" <;> simp [h1, h2]

/-- C9: for every invocation of the preset resolver, the returned preset has
devServer.framework equal to react and devServer.bundler equal to webpack,
whether resolution succeeded or the fallback was used. -/
theorem nxComponentTestingPreset_framework_bundler {P W : Type}
    (env : PresetEnv P W) (pathToConfig : String)
    (options : Option ReactComponentTestingOptions) :
    (nxComponentTestingPreset env pathToConfig options).1.devServer.framework
        = "react" ∧
    (nxComponentTestingPreset env pathToConfig options).1.devServer.bundler
        = "webpack" := by
  cases h : resolveWebpackConfig env pathToConfig options <;>
    simp [nxComponentTestingPreset, h]

/-- C1: whenever graph-based resolution fails at any step, the preset
resolver does not throw: it logs the fallback warning and the caught error,
and returns a preset whose webpackConfig is the hardcoded fallback built
from tsconfig.cy.json and the babel compiler. -/
theorem nxComponentTestingPreset_fallback_on_failure {P W : Type}
    (env : PresetEnv P W) (pathToConfig : String)
    (options : Option ReactComponentTestingOptions) (e : JsError)
    (h : resolveWebpackConfig env pathToConfig options = .error e) :
    nxComponentTestingPreset env pathToConfig options =
      ({ base := env.nxBaseCypressPreset pathToConfig
         devServer := { framework := "react"
                        bundler := "webpack"
                        webpackConfig :=
                          env.buildBaseWebpackConfig fallbackWebpackOpts } },
       [.warn fallbackWarningMessage, .warnErr e]) := by
  simp [nxComponentTestingPreset, h]

/-- C1 witness: a concrete environment whose project graph lacks the build
target's project data fails during resolution, and the resolver returns the
fallback preset with the error logged. -/
theorem nxComponentTestingPreset_fallback_on_failure_witness :
    resolveWebpackConfig sampleEnv "apps/fancy-app/cypress.config.ts" none =
      .error ⟨projectConfigsMissingMessage "other-app:build" false true⟩ ∧
    nxComponentTestingPreset sampleEnv "apps/fancy-app/cypress.config.ts" none =
      ({ base := sampleEnv.nxBaseCypressPreset "apps/fancy-app/cypress.config.ts"
         devServer := { framework := "react"
                        bundler := "webpack"
                        webpackConfig :=
                          sampleEnv.buildBaseWebpackConfig fallbackWebpackOpts } },
       [.warn fallbackWarningMessage,
        .warnErr ⟨projectConfigsMissingMessage "other-app:build" false true⟩]) :=
  ⟨by rfl,
   nxComponentTestingPreset_fallback_on_failure sampleEnv
     "apps/fancy-app/cypress.config.ts" none
     ⟨projectConfigsMissingMessage "other-app:build" false true⟩ (by rfl)⟩

/-- C2 counterexample: with a concrete environment whose component-test
target options lack devServerTarget, the resolver raises the diagnostic
internally but catches it itself: the call returns a normal preset carrying
the fallback webpack config, and the diagnostic is only logged, so no error
is surfaced to the caller. -/
theorem devServerTarget_missing_caught_internally :
    resolveWebpackConfig envNoDevServerTarget
        "apps/fancy-app/cypress.config.ts" none =
      .error ⟨devServerTargetMissingMessage "component-test" "fancy-app"⟩ ∧
    (nxComponentTestingPreset envNoDevServerTarget
        "apps/fancy-app/cypress.config.ts" none).1.devServer.webpackConfig =
      envNoDevServerTarget.buildBaseWebpackConfig fallbackWebpackOpts ∧
    (nxComponentTestingPreset envNoDevServerTarget
        "apps/fancy-app/cypress.config.ts" none).2 =
      [.warn fallbackWarningMessage,
       .warnErr ⟨devServerTargetMissingMessage "component-test" "fancy-app"⟩] :=
  ⟨by rfl, by rfl, by rfl⟩

/-- C2 amended: a missing devServerTarget option makes the resolution
pipeline raise an error whose diagnostic names the component-test target and
the project, but the preset resolver catches it: the caller receives the
fallback preset and the diagnostic is only logged as a warning. -/
theorem devServerTarget_missing_logged_and_fallback {P W : Type}
    (env : PresetEnv P W) (pathToConfig : String)
    (options : Option ReactComponentTestingOptions)
    (graph : ProjectGraph) (ctConfig : ProjectConfiguration)
    (ctx : ExecutorContext) (copts : CypressExecutorOptions)
    (h1 : env.readCachedProjectGraph = .ok graph)
    (h2 : getConfigByPath env graph pathToConfig = .ok ctConfig)
    (h3 : createExecutorContext env graph ctConfig.targets
        (ctConfig.name.getD "") (resolveCtTargetName options)
        env.envCtConfiguration = .ok ctx)
    (h4 : env.readTargetOptionsCypress
        ⟨ctConfig.name.getD "", resolveCtTargetName options,
          env.envCtConfiguration⟩ ctx = .ok copts)
    (h5 : jsTruthyStr copts.devServerTarget = false) :
    resolveWebpackConfig env pathToConfig options =
      .error ⟨devServerTargetMissingMessage (resolveCtTargetName options)
        (ctConfig.name.getD "")⟩ ∧
    nxComponentTestingPreset env pathToConfig options =
      ({ base := env.nxBaseCypressPreset pathToConfig
         devServer := { framework := "react"
                        bundler := "webpack"
                        webpackConfig :=
                          env.buildBaseWebpackConfig fallbackWebpackOpts } },
       [.warn fallbackWarningMessage,
        .warnErr ⟨devServerTargetMissingMessage (resolveCtTargetName options)
          (ctConfig.name.getD "")⟩]) := by
  have hr : resolveWebpackConfig env pathToConfig options =
      .error ⟨devServerTargetMissingMessage (resolveCtTargetName options)
        (ctConfig.name.getD "")⟩ := by
    simp [resolveWebpackConfig, h1, h2, h3, h4, h5]
  exact ⟨hr, by simp [nxComponentTestingPreset, hr]⟩

/-- C2 amended witness: the general theorem applied to the concrete
environment lacking devServerTarget. -/
theorem devServerTarget_missing_logged_and_fallback_witness :
    resolveWebpackConfig envNoDevServerTarget
        "apps/fancy-app/cypress.config.ts" none =
      .error ⟨devServerTargetMissingMessage "component-test" "fancy-app"⟩ ∧
    nxComponentTestingPreset envNoDevServerTarget
        "apps/fancy-app/cypress.config.ts" none =
      ({ base := envNoDevServerTarget.nxBaseCypressPreset
           "apps/fancy-app/cypress.config.ts"
         devServer := { framework := "react"
                        bundler := "webpack"
                        webpackConfig := envNoDevServerTarget.buildBaseWebpackConfig
                          fallbackWebpackOpts } },
       [.warn fallbackWarningMessage,
        .warnErr ⟨devServerTargetMissingMessage "component-test" "fancy-app"⟩]) :=
  devServerTarget_missing_logged_and_fallback envNoDevServerTarget
    "apps/fancy-app/cypress.config.ts" none sampleGraph sampleCtProjectNamed
    sampleExecutorContext {} (by rfl) (by rfl) (by rfl) (by rfl) (by rfl)

/-- C8: registering a remote is a no-op unless the options name a remote
with a host: for any other input the registrar returns the tree unchanged
and raises no error. -/
theorem addRemoteToHost_noop_unless_remote_with_host (env : RegistrarEnv)
    (tree : FileTree) (options : Schema)
    (h : options.mfType ≠ "remote" ∨ options.host = none) :
    addRemoteToHost env tree options = .ok tree := by
  unfold addRemoteToHost
  rcases h with h | h
  · have hg : (options.mfType == "remote") = false := by
      simp [beq_iff_eq]; exact h
    simp [hg]
  · simp [h, jsTruthyStr]

/-- C8 witness: a host-type generation run with no host project leaves an
empty tree unchanged. -/
theorem addRemoteToHost_noop_unless_remote_with_host_witness :
    addRemoteToHost sampleRegistrarEnv [] sampleHostOptions = .ok [] :=
  addRemoteToHost_noop_unless_remote_with_host sampleRegistrarEnv []
    sampleHostOptions (Or.inl (by decide))

/-- C3: registering a remote against a static host (no manifest file) whose
root has no module-federation.config.js throws the descriptive error and
performs no file writes: the error carries the original tree, so the
remotes.d.ts declaration file is also untouched. -/
theorem addRemoteToHost_static_missing_config_throws (env : RegistrarEnv)
    (tree : FileTree) (options : Schema) (hostName : String)
    (hp : MfProjectConfiguration)
    (h1 : options.mfType = "remote") (h2 : options.host = some hostName)
    (h3 : hostName ≠ "")
    (h4 : env.projects tree hostName = some hp)
    (h5 : FileTree.pathExists tree (joinPathFragments hp.sourceRoot
        "assets/module-federation.manifest.json") = false)
    (h6 : FileTree.pathExists tree (joinPathFragments hp.root
        "module-federation.config.js") = false) :
    addRemoteToHost env tree options =
      .error (staticHostMissingConfigMessage options.host, tree) := by
  have hg : (options.mfType == "remote") = true := by simp [beq_iff_eq, h1]
  have ht : jsTruthyStr options.host = true := by
    simp [h2, jsTruthyStr, beq_iff_eq, h3]
  unfold addRemoteToHost
  simp only [hg, ht, Bool.and_self, if_pos]
  rw [h2]
  simp only [Option.getD_some, h4]
  unfold determineHostFederationType
  rw [h5]
  simp only [Bool.false_eq_true, if_false]
  simp [addRemoteToStaticHost, h6, h2]

/-- C3 witness: against an empty tree (no manifest, no config file) the
registrar throws the diagnostic and the error carries the unchanged tree. -/
theorem addRemoteToHost_static_missing_config_throws_witness :
    addRemoteToHost sampleRegistrarEnv [] sampleRemoteOptions =
      .error (staticHostMissingConfigMessage (some "host1"), []) := by
  have h := addRemoteToHost_static_missing_config_throws sampleRegistrarEnv
    [] sampleRemoteOptions "host1" ⟨"apps/host1", "apps/host1/src"⟩
    (by rfl) (by rfl) (by decide) (by rfl) (by rfl) (by rfl)
  simpa using h

/-- Generator options colliding with an existing manifest key. -/
def collidingOptions : Schema := { sampleRemoteOptions with port := 4300 }

/-- A manifest already containing the application name. -/
def collisionManifest : List (String × Json) :=
  [("app1", Json.str "http://localhost:4201")]

/-- A tree whose manifest already maps app1. -/
def collisionTree : FileTree := [(manifestPath, .jsonObj collisionManifest)]

/-- C4 counterexample: registering app1 against a dynamic host whose
manifest already holds app1 adds no new key and replaces the pre-existing
value, so not every pre-existing key keeps its original value. -/
theorem addRemoteToDynamicHost_overwrite_counterexample :
    addRemoteToDynamicHost collisionTree collidingOptions manifestPath =
      .ok [(manifestPath, .jsonObj [("app1", Json.str "http://localhost:4300")])] ∧
    ("http://localhost:4300" : String) ≠ "http://localhost:4201" :=
  ⟨by rfl, by decide⟩

/-- C4 amended: when the application name is not already a key of the
manifest, registering the remote appends exactly one new key bound to the
localhost URL of the configured port and leaves every pre-existing
key-value pair unchanged. -/
theorem addRemoteToDynamicHost_fresh_key_adds_one (tree : FileTree)
    (options : Schema) (path : String) (manifest : List (String × Json))
    (h1 : FileTree.findContent? tree path = some (.jsonObj manifest))
    (h2 : manifest.any (fun e => e.1 == options.appName) = false) :
    addRemoteToDynamicHost tree options path =
      .ok (FileTree.writeFile tree path (.jsonObj (manifest ++
        [(options.appName,
          Json.str ("http://localhost:" ++ toString options.port))]))) := by
  simp [addRemoteToDynamicHost, updateJson, h1,
    addRemoteToDynamicHostUpdater, spreadSet, h2]

/-- A manifest not yet containing app1. -/
def freshManifest : List (String × Json) :=
  [("other", Json.str "http://localhost:4000")]

/-- A tree whose manifest does not yet hold app1. -/
def freshTree : FileTree := [(manifestPath, .jsonObj freshManifest)]

/-- C4 amended witness: the append equation at a concrete fresh manifest. -/
theorem addRemoteToDynamicHost_fresh_key_adds_one_witness :
    addRemoteToDynamicHost freshTree sampleRemoteOptions manifestPath =
      .ok (FileTree.writeFile freshTree manifestPath (.jsonObj (freshManifest ++
        [("app1", Json.str ("http://localhost:" ++ toString (4201 : Nat)))]))) :=
  addRemoteToDynamicHost_fresh_key_adds_one freshTree sampleRemoteOptions
    manifestPath freshManifest (by rfl) (by rfl)

/-- Looking up the overwritten key after the colliding object spread yields
the new value. -/
theorem lookup_overwriteMap (m : List (String × Json)) (k : String) (v : Json)
    (h : m.any (fun e => e.1 == k) = true) :
    List.lookup k (m.map (fun e => if e.1 == k then (k, v) else e)) = some v := by
  induction m with
  | nil => simp at h
  | cons a t ih =>
    simp only [List.any_cons, Bool.or_eq_true] at h
    rw [List.map_cons]
    by_cases hk : a.1 = k
    · rw [if_pos (show (a.1 == k) = true by simp [beq_iff_eq, hk])]
      simp [List.lookup]
    · have hk2 : (a.1 == k) = false := by
        rw [beq_eq_false_iff_ne]; exact hk
      have h2 : t.any (fun e => e.1 == k) = true := by
        rcases h with h | h
        · rw [hk2] at h; cases h
        · exact h
      have hk3 : (k == a.1) = false := by
        rw [beq_eq_false_iff_ne]
        exact fun he => hk he.symm
      rw [if_neg (show ¬((a.1 == k) = true) by simp [hk2])]
      simp only [List.lookup, hk3]
      exact ih h2

/-- C10: when the dynamic host's manifest already contains the application
name, registration raises no error and overwrites that key's value with the
localhost URL (last-wins merge): the resulting manifest is the pointwise
overwrite and looking up the name yields the new URL, not the old value. -/
theorem addRemoteToDynamicHost_collision_overwrites (tree : FileTree)
    (options : Schema) (path : String) (manifest : List (String × Json))
    (h1 : FileTree.findContent? tree path = some (.jsonObj manifest))
    (h2 : manifest.any (fun e => e.1 == options.appName) = true) :
    addRemoteToDynamicHost tree options path =
      .ok (FileTree.writeFile tree path (.jsonObj (manifest.map (fun e =>
        if e.1 == options.appName then
          (options.appName,
            Json.str ("http://localhost:" ++ toString options.port))
        else e)))) ∧
    List.lookup options.appName
        (addRemoteToDynamicHostUpdater options manifest) =
      some (Json.str ("http://localhost:" ++ toString options.port)) := by
  constructor
  · simp [addRemoteToDynamicHost, updateJson, h1,
      addRemoteToDynamicHostUpdater, spreadSet, h2]
  · unfold addRemoteToDynamicHostUpdater spreadSet
    rw [if_pos h2]
    exact lookup_overwriteMap manifest options.appName _ h2

/-- C10 witness: the collision overwrite at the concrete colliding tree. -/
theorem addRemoteToDynamicHost_collision_overwrites_witness :
    addRemoteToDynamicHost collisionTree collidingOptions manifestPath =
      .ok (FileTree.writeFile collisionTree manifestPath
        (.jsonObj (collisionManifest.map (fun e =>
          if e.1 == "app1" then
            (("app1" : String),
              Json.str ("http://localhost:" ++ toString (4300 : Nat)))
          else e)))) ∧
    List.lookup ("app1" : String)
        (addRemoteToDynamicHostUpdater collidingOptions collisionManifest) =
      some (Json.str ("http://localhost:" ++ toString (4300 : Nat))) :=
  addRemoteToDynamicHost_collision_overwrites collisionTree collidingOptions
    manifestPath collisionManifest (by rfl) (by rfl)

/-- A file read as text certainly exists. -/
theorem pathExists_of_readText {t : FileTree} {p s : String}
    (h : FileTree.readText t p = some s) : FileTree.pathExists t p = true := by
  unfold FileTree.readText at h
  unfold FileTree.pathExists
  cases hc : FileTree.findContent? t p with
  | none => rw [hc] at h; cases h
  | some c => simp

/-- C6 counterexample: on a tree with no bootstrap.ts at all (so the
standalone heuristic classifies the host as standalone and the routing
target file bootstrap.ts does not exist), the routing-patch step raises the
TypeError of reading a member of null instead of silently returning. -/
theorem addLazyLoadedRoute_missing_bootstrap_throws :
    addLazyLoadedRouteToHostAppModule sampleRegistrarEnv []
        sampleRemoteOptions .static =
      .error (typeErrorNullMember, []) := by rfl

/-- C6 amended: provided the host's bootstrap.ts exists, the routing-patch
step is a silent no-op whenever the routing target file (bootstrap.ts for a
standalone host, app/app.module.ts otherwise) does not exist or does not
contain a RouterModule.forRoot call: no error is raised and the tree is
returned unchanged.  When bootstrap.ts itself is missing the step throws
instead. -/
theorem addLazyLoadedRoute_silent_noop (env : RegistrarEnv)
    (tree : FileTree) (options : Schema) (ft : FederationType)
    (hp : MfProjectConfiguration) (bc : String)
    (h1 : env.projects tree (options.host.getD "") = some hp)
    (h2 : FileTree.readText tree
        (joinPathFragments hp.sourceRoot "bootstrap.ts") = some bc)
    (h3 : FileTree.pathExists tree (hostRootRoutingPath hp.sourceRoot bc)
        = false ∨
      (∃ rc, FileTree.readText tree (hostRootRoutingPath hp.sourceRoot bc)
          = some rc ∧ jsIncludes rc "RouterModule.forRoot(" = false)) :
    addLazyLoadedRouteToHostAppModule env tree options ft = .ok tree := by
  rcases h3 with h3 | ⟨rc, hrc, hfr⟩
  · simp [addLazyLoadedRouteToHostAppModule, h1, h2, h3]
  · have hex : FileTree.pathExists tree
        (hostRootRoutingPath hp.sourceRoot bc) = true :=
      pathExists_of_readText hrc
    simp [addLazyLoadedRouteToHostAppModule, h1, h2, hex, hrc, hfr]

/-- A tree whose only file is a module-style bootstrap.ts (the routing
target app/app.module.ts is then absent). -/
def bootstrapOnlyTree : FileTree :=
  [("apps/host1/src/bootstrap.ts",
    .text "platformBrowserDynamic().bootstrapModule(AppModule);")]

/-- C6 amended witness: with bootstrap.ts present and the module routing
file absent, the step returns the tree unchanged. -/
theorem addLazyLoadedRoute_silent_noop_witness :
    addLazyLoadedRouteToHostAppModule sampleRegistrarEnv bootstrapOnlyTree
        sampleRemoteOptions .static = .ok bootstrapOnlyTree :=
  addLazyLoadedRoute_silent_noop sampleRegistrarEnv bootstrapOnlyTree
    sampleRemoteOptions .static ⟨"apps/host1", "apps/host1/src"⟩
    "platformBrowserDynamic().bootstrapModule(AppModule);"
    (by rfl) (by rfl) (Or.inl (by rfl))

/-- A template whose first closing ul tag belongs to another list that
precedes the remote-menu block. -/
def cexTemplate : String := "<ul></ul><ul class=\"remote-menu\"></ul>"

/-- C7 counterexample: on a template whose first closing ul tag precedes
the remote-menu block, the entry is spliced before that earlier tag, not
before the remote-menu block's own closing tag: the slices at offset 33
identify the block's closing tag, yet the produced text differs from the
insertion at that position. -/
theorem patchAppComponentTemplate_first_ul_counterexample :
    patchAppComponentTemplate "app1" "App1" cexTemplate =
      some "<ul><li><a routerLink=\x27app1\x27>App1</a></li>\n</ul><ul class=\"remote-menu\"></ul>" ∧
    jsSliceTo cexTemplate 33 = "<ul></ul><ul class=\"remote-menu\">" ∧
    jsSliceFrom cexTemplate 33 = "</ul>" ∧
    ("<ul><li><a routerLink=\x27app1\x27>App1</a></li>\n</ul><ul class=\"remote-menu\"></ul>" : String) ≠
      jsSliceTo cexTemplate 33 ++ remoteMenuEntry "app1" "App1" ++
        jsSliceFrom cexTemplate 33 :=
  ⟨by rfl, by rfl, by rfl, by decide⟩

/-- C7 amended: when the template contains both the remote-menu opening tag
and some closing ul tag, exactly one list-item entry is spliced in at the
first closing ul tag of the whole template (which is the remote-menu
block's closing tag only when no closing ul tag occurs earlier), the
surrounding text preserved verbatim; otherwise the step produces no new
content, so the template file is left byte-identical. -/
theorem patchAppComponentTemplate_amended (appName className s : String) :
    ((jsIncludes s remoteMenuOpenTag && jsIncludes s "</ul>") = true →
      patchAppComponentTemplate appName className s =
        some (jsSliceTo s (jsIndexOf s "</ul>") ++
          remoteMenuEntry appName className ++
          jsSliceFrom s (jsIndexOf s "</ul>"))) ∧
    ((jsIncludes s remoteMenuOpenTag && jsIncludes s "</ul>") = false →
      patchAppComponentTemplate appName className s = none) := by
  constructor <;> intro h <;> simp [patchAppComponentTemplate, h]

/-- C7 amended witness: the splice on a template whose only closing ul tag
closes the remote-menu block, and the no-op on a template without the
remote-menu list. -/
theorem patchAppComponentTemplate_amended_witness :
    patchAppComponentTemplate "app1" "App1" "<ul class=\"remote-menu\"></ul>" =
      some (jsSliceTo "<ul class=\"remote-menu\"></ul>"
          (jsIndexOf "<ul class=\"remote-menu\"></ul>" "</ul>") ++
        remoteMenuEntry "app1" "App1" ++
        jsSliceFrom "<ul class=\"remote-menu\"></ul>"
          (jsIndexOf "<ul class=\"remote-menu\"></ul>" "</ul>")) ∧
    patchAppComponentTemplate "app1" "App1" "<div></div>" = none :=
  ⟨(patchAppComponentTemplate_amended "app1" "App1"
      "<ul class=\"remote-menu\"></ul>").1 (by rfl),
   (patchAppComponentTemplate_amended "app1" "App1" "<div></div>").2 (by rfl)⟩
